import Mathlib

/-!
Shallow embedding of the DeFi visualizer agent's template-registry and
distribution logic (src/templates/template-interface.ts,
src/distribution/capabilities.ts, src/distribution/file-distributor.ts).

Modelling conventions:
* JavaScript strings are Lean `String`s; `String.length`, `take`/`substring`
  agree with the source on the inputs considered (no surrogate-pair claims).
* JavaScript numbers are modelled as exact rationals `ℚ`; `toFixed` is decimal
  rounding (half away from zero), which agrees with the source on the decimal
  inputs used by the claims.
* JavaScript truthiness: a string is truthy iff nonempty, a number iff nonzero,
  an object/array iff present.
* Side effects (file writes, browser launch/close) are reified as an explicit
  trace of `Effect`s; fallible external calls are parameters of an environment
  record, returning `Except`/`Bool`.
-/

/-- JS truthiness for an optional string: present and nonempty. -/
def strTruthy : Option String → Bool
  | some s => !(s = "")
  | none => false

/-- `o || d` for JS strings: the string when truthy, else the default. -/
def jsOrStr (o : Option String) (d : String) : String :=
  match o with
  | some s => if s = "" then d else s
  | none => d

/-- `o || d` for JS numbers: the number when truthy (nonzero), else the default. -/
def jsOrQ (o : Option ℚ) (d : ℚ) : ℚ :=
  match o with
  | some x => if x = 0 then d else x
  | none => d

/-- `tag.replace(/\s+/g, '')`: remove every whitespace character. -/
def stripWS (s : String) : String :=
  String.mk (s.data.filter (fun c => !c.isWhitespace))

/-- JS `s.toLowerCase()`: characterwise lowercasing. -/
def strToLower (s : String) : String :=
  String.mk (s.data.map Char.toLower)

/-- `haystack.includes(needle)` on char lists: some suffix starts with `needle`. -/
def containsSubstrList (needle : List Char) : List Char → Bool
  | [] => needle.isEmpty
  | a :: t => needle.isPrefixOf (a :: t) || containsSubstrList needle t

/-- JS `s.includes(sub)`. -/
def strIncludes (s sub : String) : Bool :=
  containsSubstrList sub.data s.data

/-- `[...new Set(l)]`: deduplicate keeping the first occurrence, in order.
`seen` is the set of elements already emitted. -/
def jsDedupAux (seen : List String) : List String → List String
  | [] => []
  | a :: l => if a ∈ seen then jsDedupAux seen l else a :: jsDedupAux (a :: seen) l

/-- `[...new Set(l)]` with an empty initial set. -/
def jsDedup (l : List String) : List String := jsDedupAux [] l

/-- `q.toFixed(n)`: fixed-point decimal rendering with `n` fractional digits,
rounding half away from zero (agrees with JS on the exact-decimal inputs used
here). -/
def toFixed (q : ℚ) (n : ℕ) : String :=
  let neg := q < 0
  let aq : ℚ := if q < 0 then -q else q
  let scaled : ℚ := aq * ((10 : ℚ) ^ n) + 1 / 2
  let r : ℕ := (scaled.num / (scaled.den : ℤ)).toNat
  let s := Nat.repr r
  let s := if s.length ≤ n then String.mk (List.replicate (n + 1 - s.length) '0') ++ s else s
  let intPart := String.mk (s.data.take (s.length - n))
  let fracPart := String.mk (s.data.drop (s.length - n))
  (if neg then "-" else "") ++ (if n = 0 then intPart else intPart ++ "." ++ fracPart)

/-- `formatNumber` (src/distribution/capabilities.ts:758): abbreviate with
B/M/K suffixes. -/
def formatNumber (num : ℚ) : String :=
  if num ≥ 1000000000 then toFixed (num / 1000000000) 2 ++ "B"
  else if num ≥ 1000000 then toFixed (num / 1000000) 2 ++ "M"
  else if num ≥ 1000 then toFixed (num / 1000) 2 ++ "K"
  else toFixed num 2

/-! ## Template registry (src/templates/template-interface.ts) -/

/-- A registered visualization template: its id and suitability predicate
(the fields the registry logic consumes). `α` is the data-payload type. -/
structure Template (α : Type) where
  id : String
  isSuitableFor : α → Bool

/-- The registry's descriptor list in registration order (a JS `Map` iterates
in insertion order). -/
def findSuitableTemplates {α : Type} (registry : List (Template α)) (data : α) :
    List (Template α) :=
  registry.filter (fun t => t.isSuitableFor data)

/-- `TemplateRegistry.findBestTemplate` (template-interface.ts:156): absent on
no suitable template; with a truthy preferred type, the first suitable template
whose id includes it, else the first suitable template. -/
def findBestTemplate {α : Type} (registry : List (Template α)) (data : α)
    (preferredType : Option String) : Option (Template α) :=
  let suitableTemplates := findSuitableTemplates registry data
  if suitableTemplates.length = 0 then none
  else if strTruthy preferredType then
    match suitableTemplates.find? (fun t => strIncludes t.id (preferredType.getD "")) with
    | some t => some t
    | none => suitableTemplates.head?
  else suitableTemplates.head?

/-! ## Social content (src/distribution/capabilities.ts) -/

/-- The three supported platforms. -/
inductive Platform
  | twitter
  | linkedin
  | telegram
deriving DecidableEq

/-- The three content types of `generateSocialContent`. -/
inductive ContentType
  | short
  | detailed
  | thread
deriving DecidableEq

/-- `data.token` sub-object (fields consumed by the embedded functions). -/
structure TokenInfo where
  symbol : Option String
  name : Option String
  chain : Option String

/-- `data.price` sub-object. -/
structure PriceInfo where
  usd : Option ℚ
  change24h : Option ℚ

/-- `data.volume` sub-object. -/
structure VolumeInfo where
  usd24h : Option ℚ

/-- `data.liquidity` sub-object. -/
structure LiquidityInfo where
  usd : Option ℚ

/-- `data.buyVsSell24h` sub-object. -/
structure BuySell where
  buys : Option ℕ
  sells : Option ℕ

/-- The untyped `data` payload of `generateSocialContent` / `extractDefaultTags`,
restricted to the fields those functions read. Arrays whose elements are never
read are `Option (List String)` (only presence/length is consumed). -/
structure SocialData where
  token : Option TokenInfo
  price : Option PriceInfo
  volume : Option VolumeInfo
  liquidity : Option LiquidityInfo
  marketCap : Option ℚ
  transactions24h : Option ℕ
  buyVsSell24h : Option BuySell
  exchanges : Option (List String)
  chains : Option (List String)
  chain : Option String
  category : Option String
  topTokens : Option (List String)
  topProtocols : Option (List String)
  chainsTvl : Option (List String)
  tvl : Option ℚ
  historicalTvl : Option (List ℚ)

/-- A payload with every field absent. -/
def SocialData.empty : SocialData :=
  ⟨none, none, none, none, none, none, none, none, none, none, none, none, none,
   none, none, none⟩

/-- JS truthiness for an optional number: present and nonzero. -/
def qTruthy : Option ℚ → Bool
  | some x => !(x = 0)
  | none => false

/-- The chain-derived tag block of `extractDefaultTags`
(capabilities.ts:723-735): pushed when `data.chain || data.token.chain` is
truthy; aliases depend on the lowercased chain name. -/
def chainTags (data : SocialData) : List String :=
  let tokenChain : Option String :=
    match data.token with
    | some tok => tok.chain
    | none => none
  if strTruthy data.chain || strTruthy tokenChain then
    let chain := if strTruthy data.chain then data.chain.getD "" else tokenChain.getD ""
    [chain] ++
      (if strToLower chain = "ethereum" then ["ETH"]
       else if strToLower chain = "binance-smart-chain" || strToLower chain = "bsc" then
         ["BSC", "BNB"]
       else if strToLower chain = "solana" then ["SOL"]
       else [])
  else []

/-- The tag list `extractDefaultTags` builds before deduplication
(capabilities.ts:712-747): base tags then data-derived pushes, in push order. -/
def rawTags (data : SocialData) : List String :=
  ["DeFi", "crypto", "blockchain", "visualization", "data"]
    ++ (match data.token with
        | some tok =>
            (if strTruthy tok.symbol then [tok.symbol.getD ""] else [])
              ++ (if strTruthy tok.name then [stripWS (tok.name.getD "")] else [])
        | none => [])
    ++ chainTags data
    ++ (if strTruthy data.category then [stripWS (data.category.getD "")] else [])
    ++ (if data.topTokens.isSome then ["TokenAnalysis"] else [])
    ++ (if qTruthy data.tvl || data.historicalTvl.isSome then ["TVL", "TotalValueLocked"] else [])

/-- `extractDefaultTags` (capabilities.ts:711): push tags, then
`[...new Set(tags)].slice(0, 10)`. -/
def extractDefaultTags (data : SocialData) : List String :=
  (jsDedup (rawTags data)).take 10

/-- `generateSocialContent`'s return value. -/
structure PlatformContent where
  message : String
  tags : List String
  thread : Option (List String)

/-- `generateSocialContent` (capabilities.ts:621): branches on the data shape
(token-like / protocol-like / default) and the content type. The `platform`
argument is never read by the source body. -/
def generateSocialContent (data : SocialData) (_platform : Platform)
    (contentType : ContentType) : PlatformContent :=
  let tags := extractDefaultTags data
  match data.token with
  | some tok =>
    let tokenSymbol := jsOrStr tok.symbol "Token"
    let priceUsd := jsOrQ (data.price.bind PriceInfo.usd) 0
    let priceChange := jsOrQ (data.price.bind PriceInfo.change24h) 0
    let volume24h := jsOrQ (data.volume.bind VolumeInfo.usd24h) 0
    let sign := if priceChange ≥ 0 then "+" else ""
    match contentType with
    | .short =>
        { message := tokenSymbol ++ " is trading at $" ++ toFixed priceUsd 6 ++ " (" ++ sign
            ++ toFixed priceChange 2 ++ "% 24h) with $" ++ formatNumber volume24h
            ++ " 24h volume."
          tags := tags
          thread := none }
    | .detailed =>
        { message := tokenSymbol ++ " Market Update 📊\n\nCurrent Price: $"
            ++ toFixed priceUsd 6 ++ "\n24h Change: " ++ sign ++ toFixed priceChange 2
            ++ "%\n24h Volume: $" ++ formatNumber volume24h ++ "\n\nLiquidity: $"
            ++ formatNumber (jsOrQ (data.liquidity.bind LiquidityInfo.usd) 0)
            ++ "\nMarket Cap: $" ++ formatNumber (jsOrQ data.marketCap 0)
            ++ "\n\nTrades in last 24h: "
            ++ formatNumber ((data.transactions24h.getD 0 : ℕ) : ℚ)
            ++ " (" ++ Nat.repr ((data.buyVsSell24h.bind BuySell.buys).getD 0) ++ " buys, "
            ++ Nat.repr ((data.buyVsSell24h.bind BuySell.sells).getD 0) ++ " sells)"
          tags := tags
          thread := none }
    | .thread =>
        { message := tokenSymbol ++ " is currently trading at $" ++ toFixed priceUsd 6
            ++ " with a 24h change of " ++ sign ++ toFixed priceChange 2
            ++ "%. Let's dive into the key metrics 🧵👇"
          tags := tags
          thread := some
            [tokenSymbol ++ " is trading at $" ++ toFixed priceUsd 6 ++ " (" ++ sign
               ++ toFixed priceChange 2 ++ "% 24h)",
             "Trading volume in the last 24 hours: $" ++ formatNumber volume24h,
             "Market cap: $" ++ formatNumber (jsOrQ data.marketCap 0) ++ " with $"
               ++ formatNumber (jsOrQ (data.liquidity.bind LiquidityInfo.usd) 0)
               ++ " in liquidity",
             Nat.repr (data.transactions24h.getD 0) ++ " trades in last 24h ("
               ++ Nat.repr ((data.buyVsSell24h.bind BuySell.buys).getD 0) ++ " buys, "
               ++ Nat.repr ((data.buyVsSell24h.bind BuySell.sells).getD 0) ++ " sells)",
             tokenSymbol ++ " is available on "
               ++ Nat.repr ((data.exchanges.map List.length).getD 0) ++ " exchanges across "
               ++ Nat.repr ((data.chains.map List.length).getD 0) ++ " chains."] }
  | none =>
    if data.topProtocols.isSome || data.chainsTvl.isSome then
      match contentType with
      | .short =>
          { message := "Check out our latest DeFi market visualization with key insights on tokens, protocols, and trends."
            tags := tags
            thread := none }
      | .detailed =>
          { message := "DeFi Market Insights 📊\n\nOur latest data visualization provides an in-depth look at the current state of decentralized finance.\n\nThe visualization highlights key metrics, trending tokens, and protocol performance to help you make informed decisions.\n\nSwipe to see the full analysis and discover the latest trends in the DeFi ecosystem."
            tags := tags
            thread := none }
      | .thread =>
          { message := "We've just published our latest DeFi market visualization! Let's explore the key insights 🧵👇"
            tags := tags
            thread := some
              ["Our latest DeFi visualization provides a comprehensive overview of the market",
               "Key metrics covered include token prices, trading volume, TVL, and distribution across protocols",
               "The data reveals important trends in user activity and capital flows in the DeFi ecosystem",
               "This analysis can help you make better-informed decisions about your DeFi investments and activities",
               "Follow us for regular updates and more detailed breakdowns of the DeFi landscape!"] }
    else
      match contentType with
      | .short =>
          { message := "Check out our latest DeFi data visualization!"
            tags := tags
            thread := none }
      | .detailed =>
          { message := "Our latest DeFi data visualization provides insights on market trends, token performance, and protocol growth. Swipe to explore the data and discover the latest developments in the decentralized finance ecosystem."
            tags := tags
            thread := none }
      | .thread =>
          { message := "We've published a new DeFi visualization! Let's explore what the data shows 🧵👇"
            tags := tags
            thread := some
              ["Our latest DeFi data visualization is now available!",
               "The visualization covers key metrics across the decentralized finance ecosystem",
               "This data helps highlight emerging trends and opportunities in the market",
               "Follow us for more insights and regular updates on the DeFi landscape!"] }

/-! ## Distribution fan-out (src/distribution/capabilities.ts:363-611) -/

/-- The platform name string used in error messages. -/
def Platform.name : Platform → String
  | .twitter => "twitter"
  | .linkedin => "linkedin"
  | .telegram => "telegram"

/-- The per-platform hashtag string of `formatTagsForPlatforms`
(capabilities.ts:552): strip spaces, prefix `#`, join with a space; twitter
keeps the first 5 tags, linkedin the first 8, telegram all. -/
def formatTagsFor (tags : List String) : Platform → String
  | .twitter => String.intercalate " " ((tags.take 5).map (fun tag => "#" ++ stripWS tag))
  | .linkedin => String.intercalate " " ((tags.take 8).map (fun tag => "#" ++ stripWS tag))
  | .telegram => String.intercalate " " (tags.map (fun tag => "#" ++ stripWS tag))

/-- `formatTagsForPlatforms` builds a dictionary keyed by the requested
platforms; platforms not requested have no entry. -/
def formatTagsForPlatforms (tags : List String) (platforms : List Platform) :
    Platform → Option String :=
  fun p => if p ∈ platforms then some (formatTagsFor tags p) else none

/-- `formatMessageForPlatform` (capabilities.ts:594): twitter truncates a
message longer than 250 characters to its first 247 characters plus `...`;
linkedin and telegram pass the message through. -/
def formatMessageForPlatform (message : String) : Platform → String
  | .twitter =>
      if message.length > 250 then String.mk (message.data.take 247) ++ "..." else message
  | .linkedin => message
  | .telegram => message

/-- The `fullMessage` actually posted for a platform (capabilities.ts:391):
platform-formatted prose, a blank line, then that platform's tag string
(`formattedTags[platform] || ''`). -/
def fullMessageFor (message : String) (tags : List String) (platforms : List Platform)
    (p : Platform) : String :=
  formatMessageForPlatform message p ++ "\n\n" ++ (formatTagsForPlatforms tags platforms p).getD ""

/-- The platform call's parsed response (`postResponse.data` fields read by
`distributeToSocial`). -/
structure PostResponse where
  id : Option String
  message_id : Option String

/-- One per-platform `PublishResult` entry of `distributeToSocial`. -/
structure PublishResult where
  success : Bool
  postId : Option String
  url : Option String
  error : Option String
deriving DecidableEq

/-- The environment `distributeToSocial` runs in: whether the image file
exists, whether an action workspace is available, and the platform
integration call (given the full message; throwing modelled as `.error`). -/
structure DistEnv where
  imageExists : Bool
  hasWorkspace : Bool
  callIntegration : Platform → String → Except String PostResponse

/-- One platform's attempt inside `distributeToSocial`'s loop
(capabilities.ts:376-541): missing image short-circuits that platform; with a
workspace the integration call is made and an exception is recorded as that
platform's error; without a workspace a fixed error results. -/
def publishAttempt (env : DistEnv) (imagePath message : String) (tags : List String)
    (platforms : List Platform) (p : Platform) : PublishResult :=
  if !env.imageExists then
    { success := false, postId := none, url := none
      error := some ("Image file not found: " ++ imagePath) }
  else
    let fullMessage := fullMessageFor message tags platforms p
    if env.hasWorkspace then
      match env.callIntegration p fullMessage with
      | Except.ok resp =>
          let postId :=
            match p with
            | .twitter => resp.id
            | .linkedin => resp.id
            | .telegram => resp.message_id
          let url :=
            match p with
            | .twitter => postId.map (fun i => "https://twitter.com/user/status/" ++ i)
            | .linkedin => postId.map (fun i => "https://www.linkedin.com/feed/update/" ++ i)
            | .telegram => none
          { success := true, postId := postId, url := url, error := none }
      | Except.error e =>
          { success := false, postId := none, url := none
            error := some ("Failed to post to " ++ p.name ++ ": " ++ e) }
    else
      { success := false, postId := none, url := none
        error := some "No workspace available for posting to social media" }

/-- `distributeToSocial` (capabilities.ts:363): iterate over the requested
platforms, recording each platform's result in a dictionary (later writes win,
as in a JS object). -/
def distributeToSocial (env : DistEnv) (imagePath : String) (platforms : List Platform)
    (message : String) (tags : List String) : Platform → Option PublishResult :=
  platforms.foldl
    (fun results p => fun q =>
      if q = p then some (publishAttempt env imagePath message tags platforms p) else results q)
    (fun _ => none)

/-! ## Posting schedule (src/distribution/capabilities.ts:775) -/

/-- One entry of `generatePostSchedule`'s result. The ISO time string is
modelled by the underlying instant in seconds (ISO-8601 order is
chronological order). -/
structure ScheduleEntry where
  platform : String
  scheduledTime : ℤ
deriving DecidableEq

/-- The fixed platform list `generatePostSchedule` cycles through
(capabilities.ts:778) — independent of the campaign's requested platforms. -/
def schedulePlatforms : List String := ["twitter", "linkedin", "telegram"]

/-- `generatePostSchedule` (capabilities.ts:775): slot `i` is `now` plus
`4*i + jitter i` hours (`jitter i = Math.floor(Math.random()*2) ∈ {0,1}`),
assigned to `platforms[i % platforms.length]` of the fixed list. -/
def generatePostSchedule (postCount : ℕ) (now : ℤ) (jitter : ℕ → ℕ) :
    List ScheduleEntry :=
  (List.range postCount).map (fun i =>
    { platform := schedulePlatforms.getD (i % schedulePlatforms.length) ""
      scheduledTime := now + 3600 * (4 * (i : ℤ) + (jitter i : ℤ)) })

/-- `createSocialCampaign` sets the campaign's `suggestedSchedule` to
`generatePostSchedule(postCount)` (capabilities.ts:296); the schedule does not
depend on the campaign's topic, platforms or visualizations. -/
def createSocialCampaignSchedule (postCount : ℕ) (now : ℤ) (jitter : ℕ → ℕ) :
    List ScheduleEntry :=
  generatePostSchedule postCount now jitter

/-! ## File distribution (src/distribution/file-distributor.ts) -/

/-- Artifact formats handled by the file distributor. -/
inductive Format
  | html
  | png
  | svg
deriving DecidableEq

/-- A format's file extension string. -/
def Format.ext : Format → String
  | .html => "html"
  | .png => "png"
  | .svg => "svg"

/-- Observable side effects of the file distributor, in order of occurrence. -/
inductive Effect
  | writeFile (path content : String)
  | browserLaunch
  | browserClose
  | unlink (path : String)
deriving DecidableEq

/-- Whether an effect is a browser launch. -/
def Effect.isLaunch : Effect → Bool
  | .browserLaunch => true
  | _ => false

/-- Whether an effect is a browser close. -/
def Effect.isClose : Effect → Bool
  | .browserClose => true
  | _ => false

/-- Number of browser launches in a trace. -/
def countLaunches (es : List Effect) : ℕ := es.countP Effect.isLaunch

/-- Number of browser closes in a trace. -/
def countCloses (es : List Effect) : ℕ := es.countP Effect.isClose

/-- Which steps of a puppeteer session succeed; a `false` models the
corresponding `await` throwing. -/
structure BrowserEnv where
  launchOk : Bool
  newPageOk : Bool
  gotoOk : Bool
  evalOk : Bool
  screenshotOk : Bool

/-- The body of the `try` block of an HTML→PNG capture
(file-distributor.ts:54-84 and 172-200): open a page, navigate, measure,
screenshot to `outPath`; the first failing step throws. -/
def pngCaptureBody (env : BrowserEnv) (outPath : String) : Except String (List Effect) :=
  if !env.newPageOk then Except.error "Failed to open page"
  else if !env.gotoOk then Except.error "Navigation failed"
  else if !env.evalOk then Except.error "Evaluation failed"
  else if !env.screenshotOk then Except.error "Screenshot failed"
  else Except.ok [Effect.writeFile outPath "png-screenshot"]

/-- `puppeteer.launch` followed by `try body finally { await browser.close();
finallyEffects }`: the close (and any further finally effects) happen on the
success and the failure path alike; a failed launch opens no browser. -/
def withBrowser (env : BrowserEnv) (body : Except String (List Effect))
    (finallyEffects : List Effect) : List Effect × Except String Unit :=
  if !env.launchOk then ([], Except.error "Failed to launch browser")
  else
    match body with
    | Except.ok es =>
        ([Effect.browserLaunch] ++ es ++ [Effect.browserClose] ++ finallyEffects, Except.ok ())
    | Except.error e =>
        ([Effect.browserLaunch, Effect.browserClose] ++ finallyEffects, Except.error e)

/-- `saveVisualization`'s return value. -/
structure SaveResult where
  success : Bool
  filePath : String
  fileUrl : Option String
deriving DecidableEq

/-- The environment `saveVisualization` runs in. -/
structure SaveEnv where
  browser : BrowserEnv
  svgMatch : String → Option String
  hasWorkspace : Bool
  uploadOk : Bool
  uploadUrl : String

/-- `saveVisualization` (file-distributor.ts:14): write the artifact under
`output/` in the requested format (PNG via a puppeteer session closed in a
`finally`), then optionally upload it (an upload failure is caught and the
local file kept). -/
def saveVisualization (env : SaveEnv) (html filename : String) (fmt : Format) :
    List Effect × Except String SaveResult :=
  let outputPath := "output/" ++ filename ++ "." ++ fmt.ext
  let saved : List Effect × Except String Unit :=
    match fmt with
    | .html => ([Effect.writeFile outputPath html], Except.ok ())
    | .svg =>
        match env.svgMatch html with
        | none => ([], Except.error "No SVG content found in the HTML")
        | some svg => ([Effect.writeFile outputPath svg], Except.ok ())
    | .png =>
        let htmlPath := "output/" ++ filename ++ ".html"
        let browsed := withBrowser env.browser (pngCaptureBody env.browser outputPath) []
        ([Effect.writeFile htmlPath html] ++ browsed.1, browsed.2)
  match saved with
  | (es, Except.error e) => (es, Except.error ("Failed to save as " ++ fmt.ext ++ ": " ++ e))
  | (es, Except.ok ()) =>
      if env.hasWorkspace && env.uploadOk then
        (es, Except.ok { success := true, filePath := outputPath, fileUrl := some env.uploadUrl })
      else
        (es, Except.ok { success := true, filePath := outputPath, fileUrl := none })

/-- `path.basename`-like final path component (after the last `/`). -/
def pathBasename (p : String) : String :=
  String.mk ((p.data.reverse.takeWhile (fun c => !(c = '/'))).reverse)

/-- `path.extname`: from the last `.` of the final path component, empty when
there is no dot or only a leading dot. -/
def extname (p : String) : String :=
  let b := (pathBasename p).data
  match b.reverse.findIdx? (fun c => c = '.') with
  | none => ""
  | some i => if i + 1 = b.length then "" else String.mk ('.' :: (b.reverse.take i).reverse)

/-- `path.extname(inputPath).slice(1).toLowerCase()` (file-distributor.ts:145). -/
def inputExtOf (p : String) : String :=
  strToLower (String.mk ((extname p).data.drop 1))

/-- `inputPath.replace(new RegExp("\\." + inputExt + "$"), "." + outputFormat)`
(file-distributor.ts:146): replace a literal `.ext` suffix (case-sensitive);
with an empty extension the regex matches a bare trailing dot. -/
def replaceExtension (p inputExt : String) (fmt : Format) : String :=
  if inputExt.length > 0 && ("." ++ inputExt).data.isSuffixOf p.data then
    String.mk (p.data.take (p.data.length - (inputExt.length + 1))) ++ "." ++ fmt.ext
  else if inputExt.length = 0 && p.data.getLast? = some '.' then
    String.mk p.data.dropLast ++ "." ++ fmt.ext
  else p

/-- `inputPath.replace(/\.svg$/, ".temp.html")` (file-distributor.ts:225). -/
def svgTempHtmlPath (p : String) : String :=
  if (".svg").data.isSuffixOf p.data then
    String.mk (p.data.take (p.data.length - 4)) ++ ".temp.html"
  else p

/-- The fixed HTML host document wrapped around an SVG before rasterizing it
(file-distributor.ts:207-222). -/
def svgWrapperHtml (svg : String) : String :=
  "<!DOCTYPE html>\n<html>\n<head>\n<meta charset=\"UTF-8\">\n<title>SVG Conversion</title>\n<style>\nbody \x7b margin: 0; padding: 0; \x7d\nsvg \x7b max-width: 100%; height: auto; \x7d\n</style>\n</head>\n<body>\n"
    ++ svg ++ "\n</body>\n</html>"

/-- The environment `convertVisualization` runs in: the file system's
readable contents, the SVG structural scan, and the browser session steps. -/
structure ConvEnv where
  readFile : String → Option String
  svgMatch : String → Option String
  browser : BrowserEnv

/-- `convertVisualization` (file-distributor.ts:141): same format is a no-op
returning the input path; html→svg extracts the first SVG block; html→png and
svg→png run a puppeteer capture whose browser is closed in a `finally`
(svg→png also unlinks its temporary wrapper file there); other pairs fail
with `Unsupported conversion`. -/
def convertVisualization (env : ConvEnv) (inputPath : String) (outputFormat : Format) :
    List Effect × Except String String :=
  let inputExt := inputExtOf inputPath
  let outputPath := replaceExtension inputPath inputExt outputFormat
  if inputExt = outputFormat.ext then ([], Except.ok inputPath)
  else if inputExt = "html" && outputFormat = Format.svg then
    match env.readFile inputPath with
    | none => ([], Except.error "Failed to convert visualization: read failed")
    | some html =>
        match env.svgMatch html with
        | none =>
            ([], Except.error "Failed to convert visualization: No SVG content found in the HTML")
        | some svg => ([Effect.writeFile outputPath svg], Except.ok outputPath)
  else if inputExt = "html" && outputFormat = Format.png then
    let browsed := withBrowser env.browser (pngCaptureBody env.browser outputPath) []
    (browsed.1,
     match browsed.2 with
     | Except.ok _ => Except.ok outputPath
     | Except.error e => Except.error ("Failed to convert visualization: " ++ e))
  else if inputExt = "svg" && outputFormat = Format.png then
    match env.readFile inputPath with
    | none => ([], Except.error "Failed to convert visualization: read failed")
    | some svg =>
        let htmlPath := svgTempHtmlPath inputPath
        let browsed :=
          withBrowser env.browser (pngCaptureBody env.browser outputPath) [Effect.unlink htmlPath]
        ([Effect.writeFile htmlPath (svgWrapperHtml svg)] ++ browsed.1,
         match browsed.2 with
         | Except.ok _ => Except.ok outputPath
         | Except.error e => Except.error ("Failed to convert visualization: " ++ e))
  else
    ([], Except.error ("Failed to convert visualization: Unsupported conversion: "
      ++ inputExt ++ " to " ++ outputFormat.ext))

/-! ## Concrete inputs used by witnesses and counterexamples -/

/-- A two-template registry (both suitable for everything): `price-chart`
registered before `tvl-chart`. -/
def regW : List (Template Unit) :=
  [⟨"price-chart", fun _ => true⟩, ⟨"tvl-chart", fun _ => true⟩]

/-- The spec's token snapshot scenario:
`{token:{symbol:"ETH"}, price:{usd:2500.123456, change24h:-1.5},
volume:{usd24h:1.2e9}}`. -/
def c6Data : SocialData :=
  { SocialData.empty with
    token := some ⟨some "ETH", none, none⟩
    price := some ⟨some (2500.123456 : ℚ), some (-1.5 : ℚ)⟩
    volume := some ⟨some (1200000000 : ℚ)⟩ }

/-- A 250-character prose message (just under the twitter truncation bound). -/
def c4Message : String := String.mk (List.replicate 250 'a')

/-- Five ten-character tags. -/
def c4Tags : List String :=
  ["abcdefghij", "bcdefghijk", "cdefghijkl", "defghijklm", "efghijklmn"]

/-- A publish environment whose twitter call throws and whose other calls
succeed. -/
def distEnvW : DistEnv :=
  { imageExists := true
    hasWorkspace := true
    callIntegration := fun p _ =>
      match p with
      | .twitter => Except.error "boom"
      | _ => Except.ok ⟨some "123", none⟩ }

/-- A conversion environment (contents irrelevant to the no-op law). -/
def convEnvW : ConvEnv :=
  { readFile := fun _ => none
    svgMatch := fun _ => none
    browser := ⟨true, true, true, true, true⟩ }

/-! ## Helper lemmas -/

theorem mem_of_mem_jsDedupAux {seen l : List String} {x : String}
    (h : x ∈ jsDedupAux seen l) : x ∈ l ∧ x ∉ seen := by
  induction l generalizing seen with
  | nil => simp [jsDedupAux] at h
  | cons a t ih =>
      by_cases ha : a ∈ seen
      · rw [jsDedupAux, if_pos ha] at h
        rcases ih h with ⟨hl, hs⟩
        exact ⟨List.mem_cons_of_mem _ hl, hs⟩
      · rw [jsDedupAux, if_neg ha] at h
        rcases List.mem_cons.mp h with rfl | h
        · exact ⟨List.mem_cons_self _ _, ha⟩
        · rcases ih h with ⟨hl, hs⟩
          refine ⟨List.mem_cons_of_mem _ hl, fun hx => hs (List.mem_cons_of_mem _ hx)⟩

theorem jsDedupAux_nodup (seen l : List String) : (jsDedupAux seen l).Nodup := by
  induction l generalizing seen with
  | nil => simp [jsDedupAux]
  | cons a t ih =>
      by_cases ha : a ∈ seen
      · rw [jsDedupAux, if_pos ha]
        exact ih seen
      · rw [jsDedupAux, if_neg ha]
        refine List.nodup_cons.mpr ⟨fun hmem => ?_, ih (a :: seen)⟩
        exact (mem_of_mem_jsDedupAux hmem).2 (List.mem_cons_self a seen)

theorem jsDedupAux_sublist (seen l : List String) : (jsDedupAux seen l).Sublist l := by
  induction l generalizing seen with
  | nil => simp [jsDedupAux]
  | cons a t ih =>
      by_cases ha : a ∈ seen
      · rw [jsDedupAux, if_pos ha]
        exact (ih seen).cons a
      · rw [jsDedupAux, if_neg ha]
        exact (ih (a :: seen)).cons₂ a

theorem find?_first {α : Type} (p : α → Bool) :
    ∀ (l : List α) (b : α), l.find? p = some b →
      ∃ l₁ l₂, l = l₁ ++ b :: l₂ ∧ p b = true ∧ ∀ a ∈ l₁, p a = false := by
  intro l
  induction l with
  | nil => intro b h; simp at h
  | cons a t ih =>
      intro b h
      by_cases hp : p a = true
      · rw [List.find?_cons_of_pos _ hp] at h
        cases h
        exact ⟨[], t, rfl, hp, by simp⟩
      · rw [List.find?_cons_of_neg _ hp] at h
        rcases ih b h with ⟨l₁, l₂, rfl, hb, hl₁⟩
        refine ⟨a :: l₁, l₂, rfl, hb, fun x hx => ?_⟩
        rcases List.mem_cons.mp hx with rfl | hx
        · simpa using hp
        · exact hl₁ x hx

theorem foldl_update_lookup {β : Type} (f : Platform → β) :
    ∀ (l : List Platform) (acc : Platform → Option β) (q : Platform),
      (l.foldl (fun results p => fun x => if x = p then some (f p) else results x) acc) q
        = if q ∈ l then some (f q) else acc q := by
  intro l
  induction l with
  | nil => intro acc q; simp
  | cons a t ih =>
      intro acc q
      rw [List.foldl_cons, ih]
      by_cases hq : q ∈ t
      · simp [hq]
      · by_cases hqa : q = a
        · subst hqa; simp [hq]
        · simp [hq, hqa]

theorem pngCaptureBody_counts (env : BrowserEnv) (outPath : String) (es : List Effect)
    (h : pngCaptureBody env outPath = Except.ok es) :
    countLaunches es = 0 ∧ countCloses es = 0 := by
  unfold pngCaptureBody at h
  by_cases h1 : env.newPageOk <;> by_cases h2 : env.gotoOk <;> by_cases h3 : env.evalOk <;>
    by_cases h4 : env.screenshotOk <;>
    · simp [h1, h2, h3, h4] at h
      all_goals
        simp [← h, countLaunches, countCloses, List.countP_cons, Effect.isLaunch, Effect.isClose]

theorem withBrowser_balanced (env : BrowserEnv) (body : Except String (List Effect))
    (fins : List Effect)
    (hb : ∀ es, body = Except.ok es → countLaunches es = 0 ∧ countCloses es = 0)
    (hf : countLaunches fins = 0 ∧ countCloses fins = 0) :
    countLaunches (withBrowser env body fins).1 = countCloses (withBrowser env body fins).1 := by
  rcases hf with ⟨hf1, hf2⟩
  simp only [countLaunches, countCloses] at hf1 hf2 ⊢
  cases body with
  | ok es =>
      have h := hb es rfl
      simp only [countLaunches, countCloses] at h
      by_cases hl : env.launchOk <;>
        simp [withBrowser, hl, List.countP_append, List.countP_cons, Effect.isLaunch,
          Effect.isClose, h.1, h.2, hf1, hf2]
  | error e =>
      by_cases hl : env.launchOk <;>
        simp [withBrowser, hl, List.countP_append, List.countP_cons, Effect.isLaunch,
          Effect.isClose, hf1, hf2]

/-! ## Claim theorems -/

/-- C7: for every input data payload, `extractDefaultTags` returns at most 10
tags with no duplicate entries (case-sensitive exact string comparison),
preserving first-occurrence order (the result is an order-preserving
subsequence of the pushed tag list). -/
theorem extractDefaultTags_spec (data : SocialData) :
    (extractDefaultTags data).length ≤ 10 ∧ (extractDefaultTags data).Nodup ∧
      (extractDefaultTags data).Sublist (rawTags data) := by
  unfold extractDefaultTags jsDedup
  refine ⟨?_, ?_, ?_⟩
  · rw [List.length_take]
    exact min_le_left _ _
  · exact (List.take_sublist _ _).nodup (jsDedupAux_nodup [] (rawTags data))
  · exact (List.take_sublist _ _).trans (jsDedupAux_sublist [] (rawTags data))

/-- C10: `formatMessageForPlatform` is the identity for linkedin and telegram;
for twitter it keeps a message of length ≤ 250 unchanged and otherwise takes
the first 247 characters and appends `...`, so its twitter output never
exceeds 250 characters. -/
theorem formatMessageForPlatform_spec (message : String) :
    formatMessageForPlatform message Platform.linkedin = message ∧
    formatMessageForPlatform message Platform.telegram = message ∧
    formatMessageForPlatform message Platform.twitter =
      (if message.length ≤ 250 then message
       else String.mk (message.data.take 247) ++ "...") ∧
    (formatMessageForPlatform message Platform.twitter).length ≤ 250 := by
  have hsplit : formatMessageForPlatform message Platform.twitter =
      (if message.length ≤ 250 then message
       else String.mk (message.data.take 247) ++ "...") := by
    by_cases h : message.length > 250
    · rw [formatMessageForPlatform, if_pos h, if_neg (Nat.not_le.mpr h)]
    · rw [formatMessageForPlatform, if_neg h, if_pos (Nat.not_lt.mp h)]
  refine ⟨rfl, rfl, hsplit, ?_⟩
  rw [hsplit]
  by_cases h : message.length ≤ 250
  · rw [if_pos h]; exact h
  · rw [if_neg h]
    have hdata : message.data.length > 250 := Nat.not_le.mp h
    have hlen : (String.mk (message.data.take 247)).length = 247 := by
      rw [String.length_mk, List.length_take]
      omega
    rw [String.length_append, hlen]
    decide

/-- C8: converting an artifact to the format it already has is a no-op:
whenever the input path's (lowercased) extension equals the target format,
`convertVisualization` returns the original path with no file-system or
browser effects, so the artifact bytes are untouched. -/
theorem convertVisualization_same_format (env : ConvEnv) (inputPath : String)
    (fmt : Format) (h : inputExtOf inputPath = fmt.ext) :
    convertVisualization env inputPath fmt = ([], Except.ok inputPath) := by
  unfold convertVisualization
  simp [h]

/-- Witness for C8 at a concrete PNG path. -/
theorem convertVisualization_same_format_witness :
    convertVisualization convEnvW "output/chart.png" Format.png
      = ([], Except.ok "output/chart.png") :=
  convertVisualization_same_format convEnvW "output/chart.png" Format.png (by decide)

/-- C3 (amended): for every data payload and platform, `generateSocialContent`
with content type `thread` returns a present, nonempty thread.  (The original
claim's `message = thread[0]` does not hold: the top-level message is a
separate hook line — see the counterexample.) -/
theorem generateSocialContent_thread_present (data : SocialData) (platform : Platform) :
    ∃ t, (generateSocialContent data platform ContentType.thread).thread = some t ∧ t ≠ [] := by
  unfold generateSocialContent
  cases htok : data.token with
  | some tok => exact ⟨_, rfl, by simp⟩
  | none =>
      cases h : data.topProtocols.isSome || data.chainsTvl.isSome
      · simp only [h, Bool.false_eq_true, if_false]
        exact ⟨_, rfl, by simp⟩
      · simp only [h, if_true]
        exact ⟨_, rfl, by simp⟩

/-- Counterexample to C3 as stated: on the empty payload the thread is present
but the returned message differs from the first thread entry. -/
theorem generateSocialContent_thread_head_ne :
    (generateSocialContent SocialData.empty Platform.twitter ContentType.thread).thread.isSome
      = true ∧
    ((generateSocialContent SocialData.empty Platform.twitter
        ContentType.thread).thread.getD []).headD ""
      ≠ (generateSocialContent SocialData.empty Platform.twitter ContentType.thread).message := by
  constructor
  · decide
  · decide

set_option maxRecDepth 8192 in
/-- C4 (code bug): the string actually posted to twitter — the
platform-formatted prose plus the appended hashtag block — can exceed the
280-character post limit: with a 250-character prose message (kept unchanged,
since truncation only looks at the prose) and five ten-character tags the
posted string is 311 characters long. -/
theorem twitterFullMessage_over_limit :
    formatMessageForPlatform c4Message Platform.twitter = c4Message ∧
    (fullMessageFor c4Message c4Tags [Platform.twitter] Platform.twitter).length = 311 ∧
    280 < (fullMessageFor c4Message c4Tags [Platform.twitter] Platform.twitter).length := by
  refine ⟨by decide, by decide, by decide⟩

/-- C5 (amended): `createSocialCampaign`'s suggested schedule for
`postCount = 3` has exactly 3 entries with strictly increasing scheduled
times, but the entries cycle through the fixed list
`["twitter", "linkedin", "telegram"]` regardless of the campaign's requested
platforms (so they are not all `"twitter"`). `jitter i ≤ 1` models
`Math.floor(Math.random() * 2)`. -/
theorem createSocialCampaignSchedule_spec (now : ℤ) (jitter : ℕ → ℕ)
    (hj : ∀ i, jitter i ≤ 1) :
    (createSocialCampaignSchedule 3 now jitter).length = 3 ∧
    ((createSocialCampaignSchedule 3 now jitter).map ScheduleEntry.platform)
      = ["twitter", "linkedin", "telegram"] ∧
    List.Pairwise (fun a b => a.scheduledTime < b.scheduledTime)
      (createSocialCampaignSchedule 3 now jitter) := by
  have h0 := hj 0
  have h1 := hj 1
  have h2 := hj 2
  have e : createSocialCampaignSchedule 3 now jitter =
      [⟨"twitter", now + 3600 * (4 * (0 : ℤ) + (jitter 0 : ℤ))⟩,
       ⟨"linkedin", now + 3600 * (4 * (1 : ℤ) + (jitter 1 : ℤ))⟩,
       ⟨"telegram", now + 3600 * (4 * (2 : ℤ) + (jitter 2 : ℤ))⟩] := rfl
  have t01 : now + 3600 * (4 * (0 : ℤ) + (jitter 0 : ℤ))
      < now + 3600 * (4 * (1 : ℤ) + (jitter 1 : ℤ)) := by omega
  have t02 : now + 3600 * (4 * (0 : ℤ) + (jitter 0 : ℤ))
      < now + 3600 * (4 * (2 : ℤ) + (jitter 2 : ℤ)) := by omega
  have t12 : now + 3600 * (4 * (1 : ℤ) + (jitter 1 : ℤ))
      < now + 3600 * (4 * (2 : ℤ) + (jitter 2 : ℤ)) := by omega
  refine ⟨by rw [e]; rfl, by rw [e]; rfl, ?_⟩
  rw [e]
  refine List.Pairwise.cons ?_ (List.Pairwise.cons ?_ (List.Pairwise.cons ?_ List.Pairwise.nil))
  · intro b hb
    rcases List.mem_cons.mp hb with rfl | hb
    · exact t01
    rcases List.mem_cons.mp hb with rfl | hb
    · exact t02
    · simp at hb
  · intro b hb
    rcases List.mem_cons.mp hb with rfl | hb
    · exact t12
    · simp at hb
  · intro b hb
    simp at hb

/-- Witness for C5's amended claim with unit jitter at time zero. -/
theorem createSocialCampaignSchedule_spec_witness :
    (createSocialCampaignSchedule 3 0 (fun _ => 1)).length = 3 ∧
    ((createSocialCampaignSchedule 3 0 (fun _ => 1)).map ScheduleEntry.platform)
      = ["twitter", "linkedin", "telegram"] ∧
    List.Pairwise (fun a b => a.scheduledTime < b.scheduledTime)
      (createSocialCampaignSchedule 3 0 (fun _ => 1)) :=
  createSocialCampaignSchedule_spec 0 (fun _ => 1) (fun _ => le_refl 1)

/-- Counterexample to C5 as stated: the second schedule entry is assigned to
`"linkedin"`, not `"twitter"`, even though the campaign requested only
twitter. -/
theorem createSocialCampaignSchedule_platform_mismatch :
    ((createSocialCampaignSchedule 3 0 (fun _ => 0)).map ScheduleEntry.platform)
      = ["twitter", "linkedin", "telegram"] ∧
    ¬ (∀ e ∈ createSocialCampaignSchedule 3 0 (fun _ => 0), e.platform = "twitter") := by
  refine ⟨by decide, by decide⟩

/-- C6 (amended): on the spec's ETH token snapshot with content type `short`,
the message contains `"ETH"`, the `toFixed(6)` rendering of the 2500.123456
price, and a `%` sign; the tag list respects `extractDefaultTags`'s cap of 10
(it has 6 entries, not ≤ 3 as originally claimed). -/
theorem generateSocialContent_eth_short :
    strIncludes (generateSocialContent c6Data Platform.twitter ContentType.short).message
      "ETH" = true ∧
    strIncludes (generateSocialContent c6Data Platform.twitter ContentType.short).message
      "2500.123456" = true ∧
    strIncludes (generateSocialContent c6Data Platform.twitter ContentType.short).message
      "%" = true ∧
    (generateSocialContent c6Data Platform.twitter ContentType.short).tags.length ≤ 10 := by
  refine ⟨by with_unfolding_all decide, by with_unfolding_all decide,
    by with_unfolding_all decide, by with_unfolding_all decide⟩

/-- Counterexample to C6 as stated: the returned tag list has 6 entries,
exceeding the claimed cap of 3. -/
theorem generateSocialContent_eth_short_tags_count :
    (generateSocialContent c6Data Platform.twitter ContentType.short).tags.length = 6 ∧
    ¬ (generateSocialContent c6Data Platform.twitter ContentType.short).tags.length ≤ 3 := by
  refine ⟨by decide, by decide⟩

/-- C1: `distributeToSocial` records exactly one `PublishResult` per requested
platform, each computed by that platform's own attempt (no cross-platform
interaction); in particular with platforms `[twitter, linkedin]` where the
twitter call throws and the linkedin call succeeds, twitter's entry is a
failure and linkedin's a success. -/
theorem distributeToSocial_fanout (env : DistEnv) (imagePath message : String)
    (tags : List String) (platforms : List Platform) :
    (∀ p ∈ platforms,
        distributeToSocial env imagePath platforms message tags p
          = some (publishAttempt env imagePath message tags platforms p)) ∧
    (∀ p, p ∉ platforms → distributeToSocial env imagePath platforms message tags p = none) ∧
    (env.imageExists = true → env.hasWorkspace = true →
      ∀ e resp,
        env.callIntegration Platform.twitter
            (fullMessageFor message tags [Platform.twitter, Platform.linkedin] Platform.twitter)
          = Except.error e →
        env.callIntegration Platform.linkedin
            (fullMessageFor message tags [Platform.twitter, Platform.linkedin] Platform.linkedin)
          = Except.ok resp →
        (distributeToSocial env imagePath [Platform.twitter, Platform.linkedin] message tags
            Platform.twitter).map PublishResult.success = some false ∧
        (distributeToSocial env imagePath [Platform.twitter, Platform.linkedin] message tags
            Platform.linkedin).map PublishResult.success = some true) := by
  have lookup : ∀ (ps : List Platform) (q : Platform),
      distributeToSocial env imagePath ps message tags q
        = if q ∈ ps then some (publishAttempt env imagePath message tags ps q) else none := by
    intro ps q
    unfold distributeToSocial
    exact foldl_update_lookup (fun p => publishAttempt env imagePath message tags ps p) ps _ q
  refine ⟨?_, ?_, ?_⟩
  · intro p hp
    rw [lookup, if_pos hp]
  · intro p hp
    rw [lookup, if_neg hp]
  · intro himg hws e resp hA hB
    constructor
    · rw [lookup, if_pos (by simp)]
      unfold publishAttempt
      rw [himg, hws]
      simp [hA]
    · rw [lookup, if_pos (by simp)]
      unfold publishAttempt
      rw [himg, hws]
      simp [hB]

/-- Witness for C1: a concrete environment whose twitter call throws while
linkedin succeeds. -/
theorem distributeToSocial_fanout_witness :
    (distributeToSocial distEnvW "img.png" [Platform.twitter, Platform.linkedin] "hello" []
        Platform.twitter).map PublishResult.success = some false ∧
    (distributeToSocial distEnvW "img.png" [Platform.twitter, Platform.linkedin] "hello" []
        Platform.linkedin).map PublishResult.success = some true :=
  (distributeToSocial_fanout distEnvW "img.png" "hello" []
    [Platform.twitter, Platform.linkedin]).2.2 rfl rfl "boom" ⟨some "123", none⟩ rfl rfl

/-- C2: `findSuitableTemplates` on an empty registry is empty and
`findBestTemplate` is absent on an empty registry or whenever no registered
template is suitable; without a hint (or when no suitable id includes the
hint) the result is the first suitable template in registration order; with a
hint, whenever some suitable template's id includes it, the result is the
first such template (everything before it in the suitable list lacks the
hint). -/
theorem findBestTemplate_spec {α : Type} (registry : List (Template α)) (data : α)
    (pt : String) :
    findSuitableTemplates ([] : List (Template α)) data = [] ∧
    (∀ hint, findBestTemplate ([] : List (Template α)) data hint = none) ∧
    ((∀ t ∈ registry, t.isSuitableFor data = false) →
      ∀ hint, findBestTemplate registry data hint = none) ∧
    findBestTemplate registry data none = (findSuitableTemplates registry data).head? ∧
    (pt ≠ "" →
      (∀ t ∈ findSuitableTemplates registry data, strIncludes t.id pt = false) →
      findBestTemplate registry data (some pt) = (findSuitableTemplates registry data).head?) ∧
    (pt ≠ "" → ∀ u ∈ findSuitableTemplates registry data, strIncludes u.id pt = true →
      ∃ l₁ v l₂, findSuitableTemplates registry data = l₁ ++ v :: l₂ ∧
        strIncludes v.id pt = true ∧ (∀ w ∈ l₁, strIncludes w.id pt = false) ∧
        findBestTemplate registry data (some pt) = some v) := by
  refine ⟨rfl, fun hint => rfl, ?_, ?_, ?_, ?_⟩
  · intro h hint
    have hfil : findSuitableTemplates registry data = [] := by
      unfold findSuitableTemplates
      rw [List.filter_eq_nil_iff]
      intro t ht
      simp [h t ht]
    unfold findBestTemplate
    rw [hfil]
    rfl
  · unfold findBestTemplate
    cases hfil : findSuitableTemplates registry data with
    | nil => rfl
    | cons a t => simp [strTruthy]
  · intro hpt hnone
    unfold findBestTemplate
    cases hfil : findSuitableTemplates registry data with
    | nil => rfl
    | cons a t =>
        have hfind : (a :: t).find? (fun u => strIncludes u.id pt) = none := by
          rw [List.find?_eq_none]
          intro x hx
          simp [hnone x (hfil ▸ hx)]
        simp [strTruthy, hpt, hfind]
  · intro hpt u hu hinc
    obtain ⟨v, hv⟩ : ∃ v,
        (findSuitableTemplates registry data).find? (fun t => strIncludes t.id pt) = some v := by
      cases hf : (findSuitableTemplates registry data).find? (fun t => strIncludes t.id pt) with
      | some v => exact ⟨v, rfl⟩
      | none =>
          rw [List.find?_eq_none] at hf
          exact absurd hinc (by simpa using hf u hu)
    rcases find?_first _ _ _ hv with ⟨l₁, l₂, hdecomp, hvinc, hl₁⟩
    refine ⟨l₁, v, l₂, hdecomp, hvinc, hl₁, ?_⟩
    unfold findBestTemplate
    cases hfil : findSuitableTemplates registry data with
    | nil =>
        rw [hfil] at hu
        simp at hu
    | cons a t =>
        rw [hfil] at hv
        simp [strTruthy, hpt, hv]

/-- Witness for C2: on a two-template registry the hint `"tvl"` selects the
later-registered `tvl-chart` template. -/
theorem findBestTemplate_spec_witness :
    ∃ l₁ v l₂, findSuitableTemplates regW () = l₁ ++ v :: l₂ ∧
      strIncludes v.id "tvl" = true ∧ (∀ w ∈ l₁, strIncludes w.id "tvl" = false) ∧
      findBestTemplate regW () (some "tvl") = some v :=
  (findBestTemplate_spec regW () "tvl").2.2.2.2.2 (by decide)
    ⟨"tvl-chart", fun _ => true⟩ (by simp [findSuitableTemplates, regW]) (by decide)

theorem saveVisualization_balanced (env : SaveEnv) (html filename : String) (fmt : Format) :
    countLaunches (saveVisualization env html filename fmt).1
      = countCloses (saveVisualization env html filename fmt).1 := by
  have hpng := withBrowser_balanced env.browser
    (pngCaptureBody env.browser ("output/" ++ filename ++ "." ++ Format.png.ext)) []
    (fun es h => pngCaptureBody_counts _ _ es h) ⟨rfl, rfl⟩
  unfold saveVisualization
  cases fmt with
  | html =>
      by_cases hup : env.hasWorkspace && env.uploadOk <;> simp [hup, countLaunches, countCloses,
        List.countP_cons, Effect.isLaunch, Effect.isClose]
  | svg =>
      cases hm : env.svgMatch html with
      | none => rfl
      | some svg =>
          by_cases hup : env.hasWorkspace && env.uploadOk <;> simp [hm, hup, countLaunches,
            countCloses, List.countP_cons, Effect.isLaunch, Effect.isClose]
  | png =>
      rcases hw : withBrowser env.browser
          (pngCaptureBody env.browser ("output/" ++ filename ++ "." ++ Format.png.ext)) []
        with ⟨es, r⟩
      rw [hw] at hpng
      simp only [countLaunches, countCloses] at hpng ⊢
      cases r with
      | ok u =>
          cases u
          by_cases hup : env.hasWorkspace && env.uploadOk <;>
            simp [hw, hup, List.countP_append, List.countP_cons, Effect.isLaunch,
              Effect.isClose, hpng]
      | error e =>
          simp [hw, List.countP_append, List.countP_cons, Effect.isLaunch, Effect.isClose, hpng]

theorem convertVisualization_balanced (env : ConvEnv) (inputPath : String) (outFmt : Format) :
    countLaunches (convertVisualization env inputPath outFmt).1
      = countCloses (convertVisualization env inputPath outFmt).1 := by
  unfold convertVisualization
  by_cases h1 : inputExtOf inputPath = outFmt.ext
  · simp only [h1]
    simp [countLaunches, countCloses]
  · by_cases h2 : inputExtOf inputPath = "html"
    · rw [h2] at h1
      by_cases h3 : outFmt = Format.svg
      · subst h3
        cases hr : env.readFile inputPath with
        | none =>
            simp only [h2, hr, Format.ext]
            simp [h1, countLaunches, countCloses]
        | some htmlContent =>
            cases hm : env.svgMatch htmlContent with
            | none =>
                simp only [h2, hr, hm, Format.ext]
                simp [h1, countLaunches, countCloses]
            | some svg =>
                simp only [h2, hr, hm, Format.ext]
                simp [h1, countLaunches, countCloses, List.countP_cons, Effect.isLaunch,
                  Effect.isClose]
      · by_cases h4 : outFmt = Format.png
        · subst h4
          have hpng := withBrowser_balanced env.browser
            (pngCaptureBody env.browser (replaceExtension inputPath "html" Format.png)) []
            (fun es h => pngCaptureBody_counts _ _ es h) ⟨rfl, rfl⟩
          rcases hw : withBrowser env.browser
              (pngCaptureBody env.browser (replaceExtension inputPath "html" Format.png)) []
            with ⟨es, r⟩
          rw [hw] at hpng
          simp only [countLaunches, countCloses] at hpng ⊢
          cases r with
          | ok u =>
              cases u
              simp only [h2, hw, Format.ext]
              simpa [h1, h3] using hpng
          | error e =>
              simp only [h2, hw, Format.ext]
              simpa [h1, h3] using hpng
        · have hsvg : ¬ inputExtOf inputPath = "svg" := by
            rw [h2]
            simp
          simp only [h2]
          simp [h1, h3, h4, hsvg, countLaunches, countCloses]
    · by_cases h5 : inputExtOf inputPath = "svg"
      · rw [h5] at h1
        by_cases h4 : outFmt = Format.png
        · subst h4
          cases hr : env.readFile inputPath with
          | none =>
              simp only [h5, hr, Format.ext]
              simp [h1, h2, countLaunches, countCloses]
          | some svg =>
              have hpng := withBrowser_balanced env.browser
                (pngCaptureBody env.browser (replaceExtension inputPath "svg" Format.png))
                [Effect.unlink (svgTempHtmlPath inputPath)]
                (fun es h => pngCaptureBody_counts _ _ es h) ⟨rfl, rfl⟩
              rcases hw : withBrowser env.browser
                  (pngCaptureBody env.browser (replaceExtension inputPath "svg" Format.png))
                  [Effect.unlink (svgTempHtmlPath inputPath)]
                with ⟨es, r⟩
              rw [hw] at hpng
              simp only [countLaunches, countCloses] at hpng ⊢
              cases r with
              | ok u =>
                  cases u
                  simp only [h5, hr, hw, Format.ext]
                  simp [h1, h2, List.countP_append, List.countP_cons, Effect.isLaunch,
                    Effect.isClose]
                  simpa using hpng
              | error e =>
                  simp only [h5, hr, hw, Format.ext]
                  simp [h1, h2, List.countP_append, List.countP_cons, Effect.isLaunch,
                    Effect.isClose]
                  simpa using hpng
        · simp only [h5]
          simp [h1, h2, h4, countLaunches, countCloses]
      · simp [h1, h2, h5, countLaunches, countCloses]

/-- C9: every browser launched by `saveVisualization` or
`convertVisualization` is closed on every exit path (success or failure of
any step): the effect trace always contains exactly as many browser closes as
launches. -/
theorem browser_teardown_balanced (senv : SaveEnv) (cenv : ConvEnv)
    (html filename inputPath : String) (fmt outFmt : Format) :
    countLaunches (saveVisualization senv html filename fmt).1
      = countCloses (saveVisualization senv html filename fmt).1 ∧
    countLaunches (convertVisualization cenv inputPath outFmt).1
      = countCloses (convertVisualization cenv inputPath outFmt).1 :=
  ⟨saveVisualization_balanced senv html filename fmt,
   convertVisualization_balanced cenv inputPath outFmt⟩
